import Mathlib

/-!
Shallow embedding of the website-mirror-tool crawler core
(src/priority_queue.rs, src/escape_path.rs, src/lib.rs, src/main.rs)
together with theorems settling the specification claims about it.

Stateful Rust code is embedded by explicit state passing: the concurrent
priority queue becomes a pair of FIFO lists threaded through `pop` and
`push`, the shared "checked" set becomes a list threaded through the
worker loop body, and the external collaborators (HTTP transport, HTML
parser, filesystem) become explicit outcome parameters of the functions
that call them, mirroring the order in which the Rust code consults them.
-/

namespace WMT

/-! ## src/priority_queue.rs -/

/-- `Priority` from src/priority_queue.rs: ordered enum with lanes Normal and Low. -/
inductive Priority
  | Normal
  | Low
deriving DecidableEq, Repr

/-- `impl Default for Priority`: the default priority is `Normal`. -/
def Priority.defaultValue : Priority := .Normal

/-- `PriorityQueue<T>` from src/priority_queue.rs: one unbounded FIFO lane
(`SegQueue`) per priority; the front of each list is the oldest element,
`push` appends at the back. -/
structure PriorityQueue (T : Type) where
  normal : List T
  low : List T
deriving DecidableEq, Repr

namespace PriorityQueue

/-- `PriorityQueue::new`: both lanes empty. -/
def new {T : Type} : PriorityQueue T := ⟨[], []⟩

/-- `PriorityQueue::pop_priority`: pop the front of one lane, returning the
popped element (if any) and the updated queue. -/
def pop_priority {T : Type} (q : PriorityQueue T) (p : Priority) :
    Option T × PriorityQueue T :=
  match p with
  | .Normal =>
    match q.normal with
    | [] => (none, q)
    | x :: xs => (some x, ⟨xs, q.low⟩)
  | .Low =>
    match q.low with
    | [] => (none, q)
    | x :: xs => (some x, ⟨q.normal, xs⟩)

/-- `PriorityQueue::pop`: `pop_priority(Normal).or_else(|| pop_priority(Low))`. -/
def pop {T : Type} (q : PriorityQueue T) : Option T × PriorityQueue T :=
  match q.pop_priority .Normal with
  | (some x, q') => (some x, q')
  | (none, _) => q.pop_priority .Low

/-- `PriorityQueue::push`: append to the lane selected by
`priority.into().unwrap_or_default()`. -/
def push {T : Type} (q : PriorityQueue T) (value : T) (priority : Option Priority) :
    PriorityQueue T :=
  match priority.getD Priority.defaultValue with
  | .Normal => ⟨q.normal ++ [value], q.low⟩
  | .Low => ⟨q.normal, q.low ++ [value]⟩

/-- `PriorityQueue::is_empty`: all lanes observed empty. -/
def is_empty {T : Type} (q : PriorityQueue T) : Bool :=
  q.normal.isEmpty && q.low.isEmpty

end PriorityQueue

/-! ## src/escape_path.rs -/

/-- The division-slash character U+2215 substituted for `/`. -/
def divisionSlash : Char := '∕'

/-- `char::escape_default` from the Rust standard library, as a list of
characters: `\t`, `\r`, `\n`, backslash and both quote characters map to a
two-character backslash escape, printable ASCII maps to itself, and every
other character maps to a lowercase-hex unicode escape. -/
def escape_default (c : Char) : List Char :=
  if c = '\t' then ['\\', 't']
  else if c = '\r' then ['\\', 'r']
  else if c = '\n' then ['\\', 'n']
  else if c = '\\' then ['\\', '\\']
  else if c = Char.ofNat 39 then ['\\', Char.ofNat 39]
  else if c = '"' then ['\\', '"']
  else if 0x20 ≤ c.toNat ∧ c.toNat ≤ 0x7e then [c]
  else ['\\', 'u', '\x7b'] ++ Nat.toDigits 16 c.toNat ++ ['\x7d']

/-- `CharExt::escape_path` from src/escape_path.rs: `/` becomes the division
slash U+2215, every other character goes through `escape_default`. -/
def escape_path (c : Char) : List Char :=
  if c = '/' then [divisionSlash] else escape_default c

/-- `EscapePathExt::escape_path` for strings from src/escape_path.rs:
flat-map `escape_path` over the characters, collected back into a string. -/
def escape_path_string (s : String) : String :=
  String.mk (s.toList.flatMap escape_path)

/-! ## URL model

The `reqwest::Url` (crate `url`) values that src/lib.rs consumes, embedded
by the observations the source makes of them: `cannot_be_a_base`,
`domain()` (`some` exactly for registrable-domain hosts, `none` for
IP-address hosts and host-less URLs), `host_str()`, `path()` and
`query()`. `path_segments()` is derived from `path()` exactly as in the
url crate: the segments of `path[1..]` when the path starts with `/`. -/

structure Url where
  scheme : String
  cannot_be_a_base : Bool
  domain : Option String
  host : Option String
  path : String
  query : Option String
deriving DecidableEq, Repr

/-- `str::starts_with` (kernel-reducible model on the character lists). -/
def strStartsWith (s pre : String) : Bool :=
  pre.toList.isPrefixOf s.toList

/-- `str::split` on a single-character separator: yields at least one part,
an empty trailing part for a trailing separator, as in Rust. -/
def splitOnChar (c : Char) : List Char → List (List Char)
  | [] => [[]]
  | x :: xs =>
    let rest := splitOnChar c xs
    if x = c then [] :: rest
    else
      match rest with
      | r :: rs => (x :: r) :: rs
      | [] => [[x]]

/-- `Url::path_segments`: `path.strip_prefix('/').map(|r| r.split('/'))`. -/
def Url.path_segments (u : Url) : Option (List String) :=
  if strStartsWith u.path "/" then
    some ((splitOnChar '/' (u.path.toList.drop 1)).map String.mk)
  else none

/-! ## src/lib.rs path mapping -/

/-- `str::rsplit_once`: split at the last occurrence of `c`, returning the
parts before and after it (helper on the character list, scanning so that
the rightmost occurrence wins). -/
def rsplitOnceAux (c : Char) : List Char → Option (List Char × List Char)
  | [] => none
  | x :: xs =>
    match rsplitOnceAux c xs with
    | some (pre, post) => some (x :: pre, post)
    | none => if x = c then some ([], xs) else none

/-- `str::rsplit_once` on strings. -/
def rsplit_once (s : String) (c : Char) : Option (String × String) :=
  (rsplitOnceAux c s.toList).map (fun p => (String.mk p.1, String.mk p.2))

/-- `Path::with_file_name` as used on the relative, slash-joined,
non-trailing-slash base paths of `url_to_path`: drop the final component
and append the new file name. -/
def with_file_name (p name : String) : String :=
  match rsplit_once p '/' with
  | some (pre, _) => pre ++ "/" ++ name
  | none => name

/-- `merge_file_name_and_query` from src/lib.rs: last path segment (or
`index.html` when it is empty), with the escaped query appended after `?`
when a query is present. -/
def merge_file_name_and_query (url : Url) : Option String := do
  let segs ← url.path_segments
  let last ← segs.getLast?
  let file_name := if last = "" then "index.html" else last
  match url.query with
  | some query => pure (file_name ++ "?" ++ escape_path_string query)
  | none => pure file_name

/-- `url_to_path` from src/lib.rs: `none` for cannot-be-a-base URLs and for
URLs without a registrable domain; otherwise host-plus-path with the merged
file name substituted for the final segment. -/
def url_to_path (url : Url) : Option String :=
  if url.cannot_be_a_base then none
  else do
    let domain ← url.domain
    let base := domain ++ url.path
    let file_name ← merge_file_name_and_query url
    match rsplit_once base '/' with
    | some (_, "") => pure (base ++ file_name)
    | some (_, _) => pure (with_file_name base file_name)
    | none => none

/-! ## src/lib.rs worker: errors, download pipeline, link filtering -/

/-- `Error` from src/lib.rs (payloads elided; only the variant decides the
worker's behaviour). -/
inductive Error
  | HtmlParse
  | SendRequest
  | GetResponseBody
  | StripPath
  | CreateFile
  | WriteFile
  | ReadFile
  | BuildRuntime
  | HeaderValueToString
  | ParseContentLength
  | TimedOut
  | DecrementLatch
  | IncrementLatch
deriving DecidableEq, Repr

/-- One `href` attribute produced by the HTML-extraction collaborator in
`Worker::parse`: the raw attribute string together with the outcome of
`Url::parse` / `base_url.join` on it (`none` when parsing or relative
resolution failed, which the source logs and skips). -/
structure Href where
  raw : String
  resolved : Option Url
deriving DecidableEq, Repr

/-- The pure link pipeline of `Worker::parse` (src/lib.rs lines 340-379):
drop candidates starting with `..`, drop unresolvable ones, drop already
checked ones, pair each survivor with every configured target, keep pairs
with equal `domain()` whose path extends the target's path, and push with
priority Low when the URL is in the `downloaded_urls` set, else Normal. -/
def parse_links (hrefs : List Href) (checked targets downloaded : List Url) :
    List (Url × Priority) :=
  (((hrefs.filter (fun h => !strStartsWith h.raw "..")).filterMap
        (fun h => h.resolved)).filter
      (fun u => decide (u ∉ checked))).flatMap
    (fun u =>
      targets.flatMap (fun t =>
        if u.domain = t.domain ∧ strStartsWith u.path t.path then
          [(u, if u ∈ downloaded then Priority.Low else Priority.Normal)]
        else []))

/-- `Worker::parse`: `tl::parse` is a collaborator, so its success is an
input; on failure the `?` operator returns `Error::HtmlParse`, otherwise
the link pipeline runs and its pushes are returned. -/
def parse (parse_ok : Bool) (hrefs : List Href)
    (checked targets downloaded : List Url) :
    Except Error (List (Url × Priority)) :=
  if parse_ok then .ok (parse_links hrefs checked targets downloaded)
  else .error .HtmlParse

/-- Outcomes of the external collaborators consulted by `Worker::download`,
in the order the source consults them: the HTTP send, the content-length
header decoding, the streaming save to disk, the content-type decoding,
the re-read of the persisted file, and the HTML parser. -/
structure FetchWorld where
  send_result : Except Error Unit
  content_length_result : Except Error (Option Nat)
  save_result : Except Error String
  is_html_result : Except Error Bool
  read_result : Except Error String
  parse_ok : Bool
  hrefs : List Href
deriving Repr

/-- `Worker::download` (src/lib.rs lines 242-280): each fallible step is
sequenced with `?`; link extraction runs only for `text/html` responses,
and the pushes it performs are returned. -/
def download (w : FetchWorld) (checked targets downloaded : List Url) :
    Except Error (List (Url × Priority)) := do
  let _ ← w.send_result
  let _ ← w.content_length_result
  let _ ← w.save_result
  let is_html ← w.is_html_result
  if is_html then
    let _ ← w.read_result
    parse w.parse_ok w.hrefs checked targets downloaded
  else
    pure []

/-- `Worker::work` (src/lib.rs lines 225-240): run `download`; on success
insert the URL into the `checked` set (the Bool component records whether
the `DashSet::insert` found the URL already present, which the source only
reports as a "Checked twice" warning). Result components: job result,
updated checked set, warning flag, queue pushes performed during parse. -/
def work (w : FetchWorld) (url : Url) (checked targets downloaded : List Url) :
    Except Error Unit × List Url × Bool × List (Url × Priority) :=
  match download w checked targets downloaded with
  | .error e => (.error e, checked, false, [])
  | .ok pushes =>
    if url ∈ checked then (.ok (), checked, true, pushes)
    else (.ok (), checked ++ [url], false, pushes)

/-- The shared state a single iteration of `Worker::_run`'s busy branch
touches: the priority queue and the checked set. -/
structure LoopState where
  queue : PriorityQueue Url
  checked : List Url
deriving Repr

/-- What one iteration of the `Worker::_run` loop body did. -/
inductive IterOutcome
  | idle
  | skipped
  | worked (warned : Bool)
  | failed (e : Error)
deriving DecidableEq, Repr

/-- Apply the queue pushes performed during `Worker::parse`, in order. -/
def apply_pushes (q : PriorityQueue Url) (ps : List (Url × Priority)) :
    PriorityQueue Url :=
  ps.foldl (fun acc up => acc.push up.1 (some up.2)) q

/-- One iteration of the `Worker::_run` loop body on a successful pop
(src/lib.rs lines 181-198): discard silently if the URL is already
checked; otherwise run `work`, and on failure re-push the URL at Normal
priority. -/
def run_iteration (st : LoopState) (w : FetchWorld) (targets downloaded : List Url) :
    LoopState × IterOutcome :=
  match st.queue.pop with
  | (none, _) => (st, .idle)
  | (some url, q') =>
    if url ∈ st.checked then ({ queue := q', checked := st.checked }, .skipped)
    else
      match work w url st.checked targets downloaded with
      | (.error e, checked', _, pushes) =>
        ({ queue := (apply_pushes q' pushes).push url (some .Normal),
           checked := checked' }, .failed e)
      | (.ok _, checked', warned, pushes) =>
        ({ queue := apply_pushes q' pushes, checked := checked' }, .worked warned)

/-! ## src/lib.rs `Worker::save_response_to_disk` -/

/-- Result of `Worker::save_response_to_disk`: the very first statement is
`url_to_path(response.url()).unwrap()`, so a `none` mapping panics the
worker thread rather than producing a recoverable `Error`. The remaining
filesystem and streaming work is a collaborator outcome. -/
inductive SaveOutcome
  | panicked
  | result (r : Except Error String)
deriving Repr

/-- `Worker::save_response_to_disk` (src/lib.rs lines 282-314): unwrap the
path mapping (panicking on `none`), then join it under the output path;
`io` abstracts the create/stream/write outcome of the rest of the body. -/
def save_response_to_disk (output_path : String) (u : Url)
    (io : Except Error Unit) : SaveOutcome :=
  match url_to_path u with
  | none => .panicked
  | some p =>
    match io with
    | .error e => .result (.error e)
    | .ok _ => .result (.ok (output_path ++ "/" ++ p))

/-! ## src/main.rs worker pool -/

/-- The parsed CLI arguments of src/main.rs (`Args`): target URLs, output
path, and the documented `--threads` worker-pool size. -/
structure Args where
  targets : List Url
  output : String
  threads : Nat
deriving Repr

/-- Observable shape of the pool built by `run_worker_pool` (src/main.rs
lines 57-86): the `CountdownEvent::new(threads)` baseline and the number
of spawned crawl workers (`(0..threads).for_each(spawn_worker)`). -/
structure WorkerPool where
  latch_initial : Nat
  spawned_workers : Nat
deriving DecidableEq, Repr

/-- `run_worker_pool`: latch created with value `threads`, exactly
`threads` workers spawned. -/
def run_worker_pool (threads : Nat) : WorkerPool :=
  { latch_initial := threads, spawned_workers := threads }

/-- `main` (src/main.rs lines 41-55): builds the settings and then calls
`run_worker_pool(settings, 4)` with the literal 4 — `args.threads` is
never passed on. -/
def main_pool (_args : Args) : WorkerPool :=
  run_worker_pool 4

/-! ## Termination protocol of `Worker::_run` (src/lib.rs lines 180-218)

A small-step system for one worker's loop interleaved with an environment
(the other workers) that may rewrite the shared latch counter, queue and
checked set arbitrarily but cannot move this worker's control point. The
`&&` short-circuit of the exit check is modelled by two separate
observation points: the counter read, then (only when it read 0) the
queue-emptiness read. -/

/-- Control points of the worker loop: polling, after the decrement at the
counter read of the exit check, at the queue-emptiness read, and out of
the loop. -/
inductive WPC
  | Poll
  | CountCheck
  | EmptyCheck
  | Exited
deriving DecidableEq, Repr

/-- Shared crawl state plus one worker's control point. -/
structure SysState where
  pc : WPC
  latch : Nat
  queue : PriorityQueue Url
  checked : List Url

/-- One step of the worker loop or of its environment. -/
inductive Step : SysState → SysState → Prop where
  | dispatch (s : SysState) (w : FetchWorld) (targets downloaded : List Url)
      (url : Url) :
      s.pc = .Poll → (s.queue.pop).1 = some url →
      Step s { pc := .Poll, latch := s.latch,
               queue := (run_iteration ⟨s.queue, s.checked⟩ w targets downloaded).1.queue,
               checked := (run_iteration ⟨s.queue, s.checked⟩ w targets downloaded).1.checked }
  | idleDecrement (s : SysState) :
      s.pc = .Poll → (s.queue.pop).1 = none →
      Step s { pc := .CountCheck, latch := s.latch - 1,
               queue := s.queue, checked := s.checked }
  | countZero (s : SysState) :
      s.pc = .CountCheck → s.latch = 0 →
      Step s { pc := .EmptyCheck, latch := s.latch,
               queue := s.queue, checked := s.checked }
  | countNonzero (s : SysState) :
      s.pc = .CountCheck → s.latch ≠ 0 →
      Step s { pc := .Poll, latch := s.latch + 1,
               queue := s.queue, checked := s.checked }
  | emptyYes (s : SysState) :
      s.pc = .EmptyCheck → s.queue.is_empty = true →
      Step s { pc := .Exited, latch := s.latch,
               queue := s.queue, checked := s.checked }
  | emptyNo (s : SysState) :
      s.pc = .EmptyCheck → s.queue.is_empty = false →
      Step s { pc := .Poll, latch := s.latch + 1,
               queue := s.queue, checked := s.checked }
  | env (s : SysState) (latch' : Nat) (queue' : PriorityQueue Url)
      (checked' : List Url) :
      Step s { pc := s.pc, latch := latch', queue := queue', checked := checked' }

/-! ## Concrete values used by the theorems -/

/-- `https://www.google.com/` as parsed by the url crate. -/
def url1 : Url :=
  { scheme := "https", cannot_be_a_base := false, domain := some "www.google.com",
    host := some "www.google.com", path := "/", query := none }

/-- `http://video.google.de/?hl=de&tab=wv` as parsed by the url crate. -/
def url2 : Url :=
  { scheme := "http", cannot_be_a_base := false, domain := some "video.google.de",
    host := some "video.google.de", path := "/", query := some "hl=de&tab=wv" }

/-- `http://video.google.de/some_page` as parsed by the url crate. -/
def url3 : Url :=
  { scheme := "http", cannot_be_a_base := false, domain := some "video.google.de",
    host := some "video.google.de", path := "/some_page", query := none }

/-- The query string of the ServiceLogin URL of the `url_in_query` test. -/
def query4 : String := "hl=de&passive=true&continue=https://www.google.com/&ec=GAZAAQ"

/-- The ServiceLogin URL with an embedded URL in its query, as parsed by
the url crate. -/
def url4 : Url :=
  { scheme := "https", cannot_be_a_base := false, domain := some "accounts.google.com",
    host := some "accounts.google.com", path := "/ServiceLogin", query := some query4 }

/-- A representative crawlable URL (registrable-domain host). -/
def exUrl : Url :=
  { scheme := "https", cannot_be_a_base := false, domain := some "example.com",
    host := some "example.com", path := "/", query := none }

/-- A URL whose host is an IP address: `domain()` is `none`. -/
def uIp : Url :=
  { scheme := "http", cannot_be_a_base := false, domain := none,
    host := some "127.0.0.1", path := "/", query := none }

/-- A collaborator world where every step succeeds and the response is not
HTML. -/
def w_ok : FetchWorld :=
  { send_result := .ok (), content_length_result := .ok none,
    save_result := .ok "example.com/index.html", is_html_result := .ok false,
    read_result := .ok "", parse_ok := true, hrefs := [] }

/-- A collaborator world where the HTTP send fails. -/
def w_send_err : FetchWorld := { w_ok with send_result := .error .SendRequest }

/-- A collaborator world where everything up to and including the re-read
succeeds, the response is HTML, and the HTML parser fails. -/
def w_bad_html : FetchWorld := { w_ok with is_html_result := .ok true, parse_ok := false }

/-! ## Helper lemmas -/

lemma digitChar_ne_slash (n : Nat) : Nat.digitChar n ≠ '/' := by
  rcases Nat.lt_or_ge n 16 with h | h
  · interval_cases n <;> decide
  · have he : Nat.digitChar n = '*' := by
      unfold Nat.digitChar
      repeat rw [if_neg (by omega)]
    rw [he]
    decide

lemma toDigitsCore_ne_slash :
    ∀ (fuel n : Nat) (ds : List Char), (∀ c ∈ ds, c ≠ '/') →
      ∀ c ∈ Nat.toDigitsCore 16 fuel n ds, c ≠ '/' := by
  intro fuel
  induction fuel with
  | zero =>
    intro n ds h c hc
    simp only [Nat.toDigitsCore] at hc
    exact h c hc
  | succ f ih =>
    intro n ds h c hc
    simp only [Nat.toDigitsCore] at hc
    split at hc
    · rcases List.mem_cons.mp hc with rfl | hmem
      · exact digitChar_ne_slash _
      · exact h c hmem
    · refine ih _ _ ?_ c hc
      intro x hx
      rcases List.mem_cons.mp hx with rfl | hmem
      · exact digitChar_ne_slash _
      · exact h x hmem

lemma escape_default_no_slash (c : Char) (hc : c ≠ '/') :
    ∀ x ∈ escape_default c, x ≠ '/' := by
  unfold escape_default
  repeat' split
  all_goals try decide
  · intro x hx
    simp only [List.mem_singleton] at hx
    subst hx
    exact hc
  · intro x hx
    simp only [List.cons_append, List.nil_append, List.mem_cons, List.mem_append,
      List.mem_singleton, List.not_mem_nil, or_false] at hx
    rcases hx with rfl | rfl | rfl | hx | rfl
    · decide
    · decide
    · decide
    · exact toDigitsCore_ne_slash _ _ [] (by simp) x hx
    · decide

lemma escape_path_no_slash (c : Char) : ∀ x ∈ escape_path c, x ≠ '/' := by
  unfold escape_path
  split
  · decide
  · exact escape_default_no_slash c (by assumption)

lemma work_of_download_error (w : FetchWorld) (url : Url)
    (checked targets downloaded : List Url) (e : Error)
    (h : download w checked targets downloaded = .error e) :
    work w url checked targets downloaded = (.error e, checked, false, []) := by
  simp [work, h]

lemma work_of_download_ok (w : FetchWorld) (url : Url)
    (checked targets downloaded : List Url) (ps : List (Url × Priority))
    (h : download w checked targets downloaded = .ok ps) :
    work w url checked targets downloaded =
      (.ok (), if url ∈ checked then checked else checked ++ [url],
        decide (url ∈ checked), ps) := by
  by_cases hm : url ∈ checked <;> simp [work, h, hm]

/-! ## Claims -/

/-- C5: the priority queue serves Normal strictly before Low and is FIFO
within each lane: `pop` returns the oldest Normal item when that lane is
non-empty, else the oldest Low item, else empty; and after pushing L1, L2
at Low and N1, N2 at Normal, four pops return N1, N2, L1, L2 and leave the
queue empty. -/
theorem priority_queue_service_order :
    (∀ (T : Type) (q : PriorityQueue T) (x : T) (xs : List T),
        q.normal = x :: xs → q.pop = (some x, ⟨xs, q.low⟩))
  ∧ (∀ (T : Type) (q : PriorityQueue T) (y : T) (ys : List T),
        q.normal = [] → q.low = y :: ys → q.pop = (some y, ⟨[], ys⟩))
  ∧ (∀ (T : Type) (q : PriorityQueue T),
        q.normal = [] → q.low = [] → q.pop = (none, q))
  ∧ (∀ (T : Type) (L1 L2 N1 N2 : T),
      (((((PriorityQueue.new.push L1 (some .Low)).push L2 (some .Low)).push N1
          (some .Normal)).push N2 (some .Normal)).pop.1 = some N1)
      ∧ (((((PriorityQueue.new.push L1 (some .Low)).push L2 (some .Low)).push N1
          (some .Normal)).push N2 (some .Normal)).pop.2.pop.1 = some N2)
      ∧ (((((PriorityQueue.new.push L1 (some .Low)).push L2 (some .Low)).push N1
          (some .Normal)).push N2 (some .Normal)).pop.2.pop.2.pop.1 = some L1)
      ∧ (((((PriorityQueue.new.push L1 (some .Low)).push L2 (some .Low)).push N1
          (some .Normal)).push N2 (some .Normal)).pop.2.pop.2.pop.2.pop.1 = some L2)
      ∧ (((((PriorityQueue.new.push L1 (some .Low)).push L2 (some .Low)).push N1
          (some .Normal)).push N2 (some .Normal)).pop.2.pop.2.pop.2.pop.2.pop.1 = none)) := by
  refine ⟨?_, ?_, ?_, ?_⟩
  · intro T q x xs h
    simp [PriorityQueue.pop, PriorityQueue.pop_priority, h]
  · intro T q y ys h1 h2
    simp [PriorityQueue.pop, PriorityQueue.pop_priority, h1, h2]
  · intro T q h1 h2
    simp [PriorityQueue.pop, PriorityQueue.pop_priority, h1, h2]
  · intro T L1 L2 N1 N2
    exact ⟨rfl, rfl, rfl, rfl, rfl⟩

/-- Witness for C5: the pop laws evaluated on concrete queues. -/
theorem priority_queue_service_order_witness :
    ((⟨[1, 2], [3]⟩ : PriorityQueue Nat).pop = (some 1, ⟨[2], [3]⟩))
  ∧ ((⟨[], [3, 4]⟩ : PriorityQueue Nat).pop = (some 3, ⟨[], [4]⟩))
  ∧ ((⟨[], []⟩ : PriorityQueue Nat).pop = (none, ⟨[], []⟩)) :=
  ⟨priority_queue_service_order.1 Nat ⟨[1, 2], [3]⟩ 1 [2] rfl,
   priority_queue_service_order.2.1 Nat ⟨[], [3, 4]⟩ 3 [4] rfl rfl,
   priority_queue_service_order.2.2.1 Nat ⟨[], []⟩ rfl rfl⟩

set_option maxRecDepth 40000 in
/-- C3: the URL-to-local-path mapping satisfies the literal cases of the
specification, and every `/` of the embedded-URL query renders as the
division slash U+2215 in the file name, never as a path separator: the
escaped query contains no `/`, it contains one U+2215 per original `/`,
and the whole mapped path contains exactly one `/` (the directory
separator between host and file name). -/
theorem url_to_path_literal_cases :
    url_to_path url1 = some "www.google.com/index.html"
  ∧ url_to_path url2 = some "video.google.de/index.html?hl=de&tab=wv"
  ∧ url_to_path url3 = some "video.google.de/some_page"
  ∧ url_to_path url4 =
      some "accounts.google.com/ServiceLogin?hl=de&passive=true&continue=https:∕∕www.google.com∕&ec=GAZAAQ"
  ∧ ((escape_path_string query4).toList.all (fun c => decide (c ≠ '/')) = true)
  ∧ ((escape_path_string query4).toList.count divisionSlash = query4.toList.count '/')
  ∧ ((url_to_path url4).getD "").toList.count '/' = 1 := by
  decide

/-- C4: the query-escaping transform maps `/` to the division slash U+2215
and every other character to its default single-character escape, and its
output for any string contains no `/`, so it cannot introduce
subdirectories or path traversal. -/
theorem escape_path_transform_safe :
    (∀ c : Char, escape_path c = if c = '/' then [divisionSlash] else escape_default c)
  ∧ (∀ s : String, (escape_path_string s).toList.all (fun x => decide (x ≠ '/')) = true) := by
  constructor
  · intro c
    rfl
  · intro s
    simp only [List.all_eq_true, decide_eq_true_eq]
    intro x hx
    have hx' : x ∈ s.toList.flatMap escape_path := by
      simpa [escape_path_string] using hx
    rcases List.mem_flatMap.mp hx' with ⟨c, _, hxc⟩
    exact escape_path_no_slash c x hxc

/-- C9 (code bug): `run_worker_pool` does spawn `threads` workers and a
latch with baseline `threads`, but `main` passes the literal 4 instead of
the parsed `--threads` value, so a configured pool size of 8 still yields
4 workers and baseline 4. -/
theorem main_ignores_configured_threads :
    (main_pool { targets := [], output := ".", threads := 8 }).spawned_workers = 4
  ∧ (main_pool { targets := [], output := ".", threads := 8 }).latch_initial = 4
  ∧ (run_worker_pool 8).spawned_workers = 8
  ∧ (run_worker_pool 8).latch_initial = 8 :=
  ⟨rfl, rfl, rfl, rfl⟩

/-- C10: for every URL whose host is present but not a registrable domain
(such as an IP-address host), `url_to_path` returns `none` even though the
URL is not cannot-be-a-base, and `save_response_to_disk` unconditionally
unwraps the mapping, so persisting such a response panics instead of
returning a recoverable error. -/
theorem nondomain_host_mapping_panics :
    ∀ u : Url, u.domain = none → u.host.isSome = true → u.cannot_be_a_base = false →
      url_to_path u = none
      ∧ ∀ (out : String) (io : Except Error Unit),
          save_response_to_disk out u io = .panicked := by
  intro u hd _ hc
  have hpath : url_to_path u = none := by
    simp [url_to_path, hc, hd]
  exact ⟨hpath, fun out io => by simp [save_response_to_disk, hpath]⟩

/-- Witness for C10: the IP-host URL `http://127.0.0.1/` maps to `none` and
panics the persist step. -/
theorem nondomain_host_mapping_panics_witness :
    url_to_path uIp = none
  ∧ save_response_to_disk "out" uIp (.ok ()) = .panicked :=
  ⟨(nondomain_host_mapping_panics uIp rfl rfl rfl).1,
   (nondomain_host_mapping_panics uIp rfl rfl rfl).2 "out" (.ok ())⟩

/-- C6: on every per-job recoverable failure (any `Error` returned by
`download`), the loop body re-pushes the same URL onto the queue at Normal
priority exactly once — the new Normal lane is the old one with exactly
one copy of the URL appended, the Low lane is untouched, and the checked
set is unchanged, so the job is never silently dropped. -/
theorem recoverable_failure_requeues_once :
    ∀ (st : LoopState) (w : FetchWorld) (targets downloaded : List Url)
      (url : Url) (q' : PriorityQueue Url) (e : Error),
      st.queue.pop = (some url, q') → url ∉ st.checked →
      download w st.checked targets downloaded = .error e →
      run_iteration st w targets downloaded =
        ({ queue := q'.push url (some .Normal), checked := st.checked }, .failed e)
      ∧ (q'.push url (some .Normal)).normal = q'.normal ++ [url]
      ∧ (q'.push url (some .Normal)).low = q'.low := by
  intro st w targets downloaded url q' e hpop hchk hdl
  refine ⟨?_, rfl, rfl⟩
  simp only [run_iteration]
  rw [hpop]
  simp [hchk, work_of_download_error w url st.checked targets downloaded e hdl,
    apply_pushes]

/-- Witness for C6: a send failure on a concrete one-element queue
re-pushes the URL at Normal priority. -/
theorem recoverable_failure_requeues_once_witness :
    run_iteration ⟨⟨[exUrl], []⟩, []⟩ w_send_err [] [] =
      ({ queue := PriorityQueue.push ⟨[], []⟩ exUrl (some .Normal), checked := [] },
        .failed .SendRequest)
  ∧ (PriorityQueue.push (⟨[], []⟩ : PriorityQueue Url) exUrl (some .Normal)).normal
      = [] ++ [exUrl]
  ∧ (PriorityQueue.push (⟨[], []⟩ : PriorityQueue Url) exUrl (some .Normal)).low = [] :=
  recoverable_failure_requeues_once ⟨⟨[exUrl], []⟩, []⟩ w_send_err [] [] exUrl
    ⟨[], []⟩ .SendRequest rfl (by simp) rfl

/-- C7: checked-set policy — a popped URL that is already checked is
discarded silently without fetching; the URL is inserted into the checked
set exactly when `download` succeeds (never on the dispatch path, never on
failure); and a duplicate insert leaves the job successful, observable
only as the warning flag. -/
theorem checked_set_policy :
    ∀ (st : LoopState) (w : FetchWorld) (targets downloaded : List Url)
      (url : Url) (q' : PriorityQueue Url),
      (st.queue.pop = (some url, q') → url ∈ st.checked →
        run_iteration st w targets downloaded =
          ({ queue := q', checked := st.checked }, .skipped))
    ∧ (∀ ps, download w st.checked targets downloaded = .ok ps →
        work w url st.checked targets downloaded =
          (.ok (), if url ∈ st.checked then st.checked else st.checked ++ [url],
            decide (url ∈ st.checked), ps))
    ∧ (∀ e, download w st.checked targets downloaded = .error e →
        work w url st.checked targets downloaded = (.error e, st.checked, false, [])) := by
  intro st w targets downloaded url q'
  refine ⟨?_, ?_, ?_⟩
  · intro hpop hchk
    simp only [run_iteration]
    rw [hpop]
    simp [hchk]
  · intro ps h
    exact work_of_download_ok w url st.checked targets downloaded ps h
  · intro e h
    exact work_of_download_error w url st.checked targets downloaded e h

/-- Witness for C7: a checked URL is skipped on a concrete queue; a
successful download inserts; a failed download leaves the checked set
untouched. -/
theorem checked_set_policy_witness :
    run_iteration ⟨⟨[exUrl], []⟩, [exUrl]⟩ w_ok [] [] =
      ({ queue := ⟨[], []⟩, checked := [exUrl] }, .skipped)
  ∧ work w_ok exUrl [exUrl] [] [] =
      (.ok (), if exUrl ∈ [exUrl] then [exUrl] else [exUrl] ++ [exUrl],
        decide (exUrl ∈ [exUrl]), [])
  ∧ work w_send_err exUrl [] [] [] = (.error .SendRequest, [], false, []) :=
  ⟨(checked_set_policy ⟨⟨[exUrl], []⟩, [exUrl]⟩ w_ok [] [] exUrl ⟨[], []⟩).1 rfl
      (by simp),
   (checked_set_policy ⟨⟨[exUrl], []⟩, [exUrl]⟩ w_ok [] [] exUrl ⟨[], []⟩).2.1 [] rfl,
   (checked_set_policy ⟨⟨[], []⟩, []⟩ w_send_err [] [] exUrl ⟨[], []⟩).2.2
      .SendRequest rfl⟩

/-- C2 counterexample: on a fetched HTML document whose parse fails, the
job is NOT treated as successful — `download` returns `Error::HtmlParse`,
the loop body records a failure, the URL is re-pushed onto the queue, and
the URL is not marked checked, refuting the claim at this concrete
input. -/
theorem html_parse_failure_requeues_cex :
    download w_bad_html [] [] [] = .error .HtmlParse
  ∧ run_iteration ⟨⟨[exUrl], []⟩, []⟩ w_bad_html [] [] =
      ({ queue := ⟨[exUrl], []⟩, checked := [] }, .failed .HtmlParse) := by
  exact ⟨rfl, rfl⟩

/-- C2 as amended: an HTML parse failure fails the enclosing job — when
every step up to and including the persisted-file re-read succeeds, the
response is HTML and the parser fails, `download` propagates
`Error::HtmlParse`, the URL is not marked checked, and it is re-pushed
onto the queue at Normal priority like any other recoverable failure (the
persisted file itself is never deleted). -/
theorem html_parse_failure_fails_job :
    ∀ (st : LoopState) (w : FetchWorld) (targets downloaded : List Url)
      (url : Url) (q' : PriorityQueue Url) (cl : Option Nat) (p doc : String),
      st.queue.pop = (some url, q') → url ∉ st.checked →
      w.send_result = .ok () → w.content_length_result = .ok cl →
      w.save_result = .ok p → w.is_html_result = .ok true →
      w.read_result = .ok doc → w.parse_ok = false →
      download w st.checked targets downloaded = .error .HtmlParse
      ∧ run_iteration st w targets downloaded =
          ({ queue := q'.push url (some .Normal), checked := st.checked },
            .failed .HtmlParse) := by
  intro st w targets downloaded url q' cl p doc hpop hchk hsend hcl hsave hhtml hread hparse
  have hdl : download w st.checked targets downloaded = .error .HtmlParse := by
    simp [download, hsend, hcl, hsave, hhtml, hread, hparse, parse, Bind.bind, Except.bind]
  refine ⟨hdl, ?_⟩
  simp only [run_iteration]
  rw [hpop]
  simp [hchk, work_of_download_error w url st.checked targets downloaded .HtmlParse hdl,
    apply_pushes]

/-- Witness for the amended C2: the concrete parse-failure world on a
one-element queue. -/
theorem html_parse_failure_fails_job_witness :
    download w_bad_html [] [] [] = .error .HtmlParse
  ∧ run_iteration ⟨⟨[exUrl], []⟩, []⟩ w_bad_html [] [] =
      ({ queue := PriorityQueue.push ⟨[], []⟩ exUrl (some .Normal), checked := [] },
        .failed .HtmlParse) :=
  html_parse_failure_fails_job ⟨⟨[exUrl], []⟩, []⟩ w_bad_html [] [] exUrl ⟨[], []⟩
    none "example.com/index.html" "" rfl (by simp) rfl rfl rfl rfl rfl rfl

/-! ### C8 -/

/-- A target URL whose host is the IP address 1.2.3.4 (`domain()` is
`none`). -/
def ipTarget : Url :=
  { scheme := "http", cannot_be_a_base := false, domain := none,
    host := some "1.2.3.4", path := "/", query := none }

/-- A discovered URL on the different IP host 5.6.7.8 (`domain()` is also
`none`). -/
def ipOther : Url :=
  { scheme := "http", cannot_be_a_base := false, domain := none,
    host := some "5.6.7.8", path := "/x", query := none }

/-- The href carrying `ipOther`. -/
def ipHref : Href := { raw := "http://5.6.7.8/x", resolved := some ipOther }

/-- A crawlable discovered URL under the `exUrl` target. -/
def exLinkUrl : Url :=
  { scheme := "https", cannot_be_a_base := false, domain := some "example.com",
    host := some "example.com", path := "/a", query := none }

/-- The href carrying `exLinkUrl`. -/
def exHref : Href := { raw := "https://example.com/a", resolved := some exLinkUrl }

/-- C8 counterexample: the filter compares `domain()`, not hosts — a
candidate on IP host 5.6.7.8 is enqueued although its host differs from
the host of every configured target (here the single target on IP host
1.2.3.4), because both `domain()` values are `none` and compare equal. -/
theorem differing_ip_host_enqueued_cex :
    parse_links [ipHref] [] [ipTarget] [] = [(ipOther, .Normal)]
  ∧ ipOther.host = some "5.6.7.8"
  ∧ ipTarget.host = some "1.2.3.4"
  ∧ decide (ipOther.host = ipTarget.host) = false := by
  refine ⟨by decide, rfl, rfl, by decide⟩

/-- C8 as amended: a candidate is enqueued only if it came from an href
not lexically beginning with `..` that resolved to it, it is not in the
checked set, and some configured target has the same `domain()` value
(which is `none` for every IP host, so distinct IP hosts compare equal)
and a path that prefixes the candidate's path; contrapositively, a
candidate failing the domain-and-path filter against every target, or
starting with `..`, or already checked, is never enqueued. -/
theorem parse_links_enqueue_requires_filters :
    ∀ (hrefs : List Href) (checked targets downloaded : List Url)
      (u : Url) (p : Priority),
      (u, p) ∈ parse_links hrefs checked targets downloaded →
      (∃ h ∈ hrefs, h.resolved = some u ∧ strStartsWith h.raw ".." = false)
      ∧ u ∉ checked
      ∧ (∃ t ∈ targets, u.domain = t.domain ∧ strStartsWith u.path t.path = true) := by
  intro hrefs checked targets downloaded u p hmem
  unfold parse_links at hmem
  rcases List.mem_flatMap.mp hmem with ⟨u', hu', hpair⟩
  rcases List.mem_flatMap.mp hpair with ⟨t, ht, hin⟩
  by_cases hcond : u'.domain = t.domain ∧ strStartsWith u'.path t.path
  · rw [if_pos hcond] at hin
    simp only [List.mem_singleton, Prod.mk.injEq] at hin
    obtain ⟨rfl, -⟩ := hin
    rcases List.mem_filter.mp hu' with ⟨hu2, hchk⟩
    rcases List.mem_filterMap.mp hu2 with ⟨h, hh, hres⟩
    rcases List.mem_filter.mp hh with ⟨hh0, hraw⟩
    refine ⟨⟨h, hh0, hres, ?_⟩, ?_, ⟨t, ht, hcond.1, hcond.2⟩⟩
    · simpa using hraw
    · simpa using hchk
  · rw [if_neg hcond] at hin
    simp at hin

/-- Witness for the amended C8: the concrete enqueued candidate
`exLinkUrl` under target `exUrl` satisfies all three filter conditions. -/
theorem parse_links_enqueue_requires_filters_witness :
    (∃ h ∈ [exHref], h.resolved = some exLinkUrl ∧ strStartsWith h.raw ".." = false)
  ∧ exLinkUrl ∉ ([] : List Url)
  ∧ (∃ t ∈ [exUrl], exLinkUrl.domain = t.domain
      ∧ strStartsWith exLinkUrl.path t.path = true) :=
  parse_links_enqueue_requires_filters [exHref] [] [exUrl] [] exLinkUrl .Normal
    (by decide)

/-- C1: a worker breaks out of its polling loop only at an exit check
where its observations held — every transition of the loop into the
`Exited` control point happens at the queue-emptiness read of the exit
check with the queue observed empty, and the worker reaches that read only
through the counter read of the same check observing the shared busy
counter equal to 0; environment (other-worker) activity never moves this
worker's control point. -/
theorem worker_exit_check_safety :
    ∀ s s' : SysState, Step s s' →
      (s'.pc = .Exited → s.pc ≠ .Exited →
        s.pc = .EmptyCheck ∧ s.queue.is_empty = true)
    ∧ (s'.pc = .EmptyCheck → s.pc ≠ .EmptyCheck →
        s.pc = .CountCheck ∧ s.latch = 0) := by
  intro s s' hstep
  cases hstep <;> constructor <;> intro h1 h2 <;> simp_all

/-- Witness for C1: the exit transition on a concrete empty-queue state,
and the counter-read transition on a concrete zero-counter state. -/
theorem worker_exit_check_safety_witness :
    ((⟨.EmptyCheck, 0, ⟨[], []⟩, []⟩ : SysState).pc = .EmptyCheck
      ∧ PriorityQueue.is_empty (⟨[], []⟩ : PriorityQueue Url) = true)
  ∧ ((⟨.CountCheck, 0, ⟨[], []⟩, []⟩ : SysState).pc = .CountCheck
      ∧ (⟨.CountCheck, 0, ⟨[], []⟩, []⟩ : SysState).latch = 0) :=
  ⟨(worker_exit_check_safety ⟨.EmptyCheck, 0, ⟨[], []⟩, []⟩
      ⟨.Exited, 0, ⟨[], []⟩, []⟩ (Step.emptyYes _ rfl rfl)).1 rfl (by decide),
   (worker_exit_check_safety ⟨.CountCheck, 0, ⟨[], []⟩, []⟩
      ⟨.EmptyCheck, 0, ⟨[], []⟩, []⟩ (Step.countZero _ rfl rfl)).2 rfl (by decide)⟩

end WMT
